import Mathlib

/-!
Verification development for the `embiggen-your-eyes` planetary-feature
explorer.  The definitions below are a shallow embedding, translated from the
repository sources, of:

* the bounds filter (`src/lib/area-selection.ts`),
* the KMZ archive parser and feature loader (`src/lib/kmz-loader.ts`),
* the region assignment and timeline engine (`src/app.js`),
* the scientific estimation model (`FeatureAnalyzer`, `src/unnamed/part_004`),
* the unit-sphere coordinate transforms (`src/lib/area-selection.ts`),

JavaScript numbers are modelled as exact rationals; the coordinate transforms
(which use trigonometry) are modelled over the reals.  Host builtins used by
the source (`parseFloat`, `String.prototype.includes`, `Array.prototype.sort`,
`DOMParser`, `fetch`) are modelled explicitly where the behaviour matters and
noted as such.
-/

/-- A JavaScript number produced by `parseFloat` that is not `NaN`: a finite
value (modelled exactly as a rational) or one of the two infinities.  `NaN`
is represented as `none` at use sites (`Option JsNum`), matching the source's
`isNaN` checks. -/
inductive JsNum where
  | fin (q : ℚ)
  | posInf
  | negInf
deriving DecidableEq

/-- JavaScript `<` on non-NaN numbers. -/
def JsNum.lt : JsNum → JsNum → Bool
  | .fin a, .fin b => decide (a < b)
  | .fin _, .posInf => true
  | .negInf, .fin _ => true
  | .negInf, .posInf => true
  | _, _ => false

/-- JavaScript `>` on non-NaN numbers. -/
def JsNum.gt (a b : JsNum) : Bool := JsNum.lt b a

/-- JavaScript `<=` on non-NaN numbers. -/
def JsNum.le : JsNum → JsNum → Bool
  | .fin a, .fin b => decide (a ≤ b)
  | .fin _, .posInf => true
  | .fin _, .negInf => false
  | .posInf, .posInf => true
  | .posInf, _ => false
  | .negInf, _ => true

/-- JavaScript `>=` on non-NaN numbers. -/
def JsNum.ge (a b : JsNum) : Bool := JsNum.le b a

/-- A `JsNum` is finite when it carries a rational value (JS `Number.isFinite`
restricted to non-NaN inputs). -/
def JsNum.isFin : JsNum → Bool
  | .fin _ => true
  | _ => false

/-- JavaScript falsiness of a non-NaN number: only `0` is falsy. -/
def JsNum.isFalsy : JsNum → Bool
  | .fin q => decide (q = 0)
  | _ => false

/-- The value of `d || dflt` in JavaScript for `d : Option JsNum` (absent or
zero falls back to the default), as used for `props.diameter || 10`. -/
def jsOrDefault (d : Option JsNum) (dflt : ℚ) : JsNum :=
  match d with
  | some v => if v.isFalsy then .fin dflt else v
  | none => .fin dflt

/-- Model of JavaScript `String.prototype.includes`. -/
def jsIncludes (s pat : String) : Bool :=
  s.toList.tails.any (fun t => pat.toList.isPrefixOf t)

/-- Model of JavaScript `String.prototype.trim`: strip whitespace from both
ends.  (Implemented on the character list so that proofs can evaluate it.) -/
def jsTrim (s : String) : String :=
  String.mk (((s.toList.dropWhile (·.isWhitespace)).reverse.dropWhile
    (·.isWhitespace)).reverse)

/-- Numeric value of a digit string (most significant first). -/
def digitsToNat (ds : List Char) : ℕ :=
  ds.foldl (fun n c => 10 * n + (c.toNat - 48)) 0

/-- Split a character list into its leading run of decimal digits and the
rest. -/
def splitDigits (cs : List Char) : List Char × List Char :=
  (cs.takeWhile (·.isDigit), cs.dropWhile (·.isDigit))

/-- Parse the longest prefix of `cs` of the shape `digits [. digits]` or
`. digits` (at least one digit overall), returning its exact value and the
remaining characters.  This is the mantissa grammar of JavaScript
`parseFloat`. -/
def parseMantissa (cs : List Char) : Option (ℚ × List Char) :=
  let ip := splitDigits cs
  match ip.2 with
  | '.' :: rest2 =>
      let fp := splitDigits rest2
      if ip.1.isEmpty && fp.1.isEmpty then none
      else some ((digitsToNat ip.1 : ℚ) + (digitsToNat fp.1 : ℚ) / (10 : ℚ) ^ fp.1.length, fp.2)
  | _ => if ip.1.isEmpty then none else some ((digitsToNat ip.1 : ℚ), ip.2)

/-- Parse an exponent suffix `e`/`E`, optional sign, at least one digit.
`none` when the suffix is absent or malformed (JavaScript then keeps the
mantissa value alone). -/
def parseExponent (cs : List Char) : Option ℤ :=
  match cs with
  | c :: rest =>
      if c = 'e' ∨ c = 'E' then
        let sr : ℤ × List Char :=
          match rest with
          | '-' :: r => (-1, r)
          | '+' :: r => (1, r)
          | _ => (1, rest)
        let ds := splitDigits sr.2
        if ds.1.isEmpty then none else some (sr.1 * (digitsToNat ds.1 : ℤ))
      else none
  | [] => none

/-- Apply a parsed exponent suffix to a mantissa value. -/
def applyExponent (q : ℚ) (cs : List Char) : ℚ :=
  match parseExponent cs with
  | some e => q * (10 : ℚ) ^ e
  | none => q

/-- Model of JavaScript `parseFloat`: leading whitespace is skipped, an
optional sign is read, then either an `Infinity` literal or a decimal
mantissa with optional exponent; if no numeric prefix exists the result is
`NaN`, modelled as `none`. -/
def jsParseFloat (s : String) : Option JsNum :=
  let cs := s.toList.dropWhile (·.isWhitespace)
  let sc : Bool × List Char :=
    match cs with
    | '-' :: r => (true, r)
    | '+' :: r => (false, r)
    | _ => (false, cs)
  if "Infinity".toList.isPrefixOf sc.2 then
    some (if sc.1 then .negInf else .posInf)
  else
    match parseMantissa sc.2 with
    | some qr =>
        let v := applyExponent qr.1 qr.2
        some (.fin (if sc.1 then -v else v))
    | none => none

namespace AreaSelection

/-- `BoundingBox` from `src/lib/area-selection.ts`. -/
structure BoundingBox where
  north : ℚ
  south : ℚ
  east : ℚ
  west : ℚ
deriving DecidableEq

/-- `isPointInBounds` from `src/lib/area-selection.ts`: closed-interval
latitude check, and a longitude check that switches to a disjunction when the
box crosses the antimeridian (`west > east`). -/
def isPointInBounds (lat lon : ℚ) (bounds : BoundingBox) : Bool :=
  let latMatch := decide (lat ≥ bounds.south) && decide (lat ≤ bounds.north)
  let lonMatch :=
    if bounds.west ≤ bounds.east then
      decide (lon ≥ bounds.west) && decide (lon ≤ bounds.east)
    else
      decide (lon ≥ bounds.west) || decide (lon ≤ bounds.east)
  latMatch && lonMatch

end AreaSelection

/-- Claim C9: for every latitude within the box's closed latitude interval,
`isPointInBounds` tests longitude as `lon ∈ [west, east]` when `west ≤ east`
and as `lon ≥ west ∨ lon ≤ east` when `west > east`; in particular the point
`(10, 179)` lies in the box `{west := 170, east := -170}` and `(10, 0)` does
not. -/
theorem claim_C9_bounds_membership (lat lon : ℚ) (b : AreaSelection.BoundingBox)
    (h1 : b.south ≤ lat) (h2 : lat ≤ b.north) :
    (AreaSelection.isPointInBounds lat lon b =
      (if b.west ≤ b.east then decide (b.west ≤ lon ∧ lon ≤ b.east)
       else decide (lon ≥ b.west ∨ lon ≤ b.east))) ∧
    AreaSelection.isPointInBounds 10 179 ⟨20, 0, -170, 170⟩ = true ∧
    AreaSelection.isPointInBounds 10 0 ⟨20, 0, -170, 170⟩ = false := by
  refine ⟨?_, by decide, by decide⟩
  unfold AreaSelection.isPointInBounds
  have hl : (decide (lat ≥ b.south) && decide (lat ≤ b.north)) = true := by
    simp [ge_iff_le, h1, h2]
  simp only [hl, Bool.true_and]
  split <;> simp [Bool.decide_and, Bool.decide_or, ge_iff_le]

/-- Witness for claim C9 at the concrete box `{north 20, south 0, east -170,
west 170}` and point `(10, 179)`. -/
theorem claim_C9_bounds_membership_witness :
    (AreaSelection.isPointInBounds 10 179 ⟨20, 0, -170, 170⟩ =
      (if (170 : ℚ) ≤ -170 then decide ((170 : ℚ) ≤ 179 ∧ (179 : ℚ) ≤ -170)
       else decide ((179 : ℚ) ≥ 170 ∨ (179 : ℚ) ≤ -170))) ∧
    AreaSelection.isPointInBounds 10 179 ⟨20, 0, -170, 170⟩ = true ∧
    AreaSelection.isPointInBounds 10 0 ⟨20, 0, -170, 170⟩ = false :=
  claim_C9_bounds_membership 10 179 ⟨20, 0, -170, 170⟩ (by norm_num) (by norm_num)

namespace Kmz

/-- A `<SimpleData>` element inside `<ExtendedData>`: its `name` attribute
(absent when `getAttribute` returns null) and its text content. -/
structure SimpleData where
  attr : Option String
  text : String
deriving DecidableEq

/-- A `<Placemark>` node as seen by `parseKML` through the DOM: text of the
first `<name>` element, text of the first `<coordinates>` element (each
absent when the element is missing), and the `<SimpleData>` children of the
first `<ExtendedData>` element (absent when no such element exists). -/
structure Placemark where
  nameEl : Option String
  coordsEl : Option String
  extendedData : Option (List SimpleData)
deriving DecidableEq

/-- Outcome of `DOMParser.parseFromString` on the KML text: a document whose
`parsererror` query is non-empty, or the list of `Placemark` nodes. -/
inductive KMLDoc where
  | parseError
  | doc (placemarks : List Placemark)
deriving DecidableEq

/-- `source` tag of a feature: archive (`'kmz'`) or curated (`'famous'`). -/
inductive FeatureSource where
  | kmz
  | famous
deriving DecidableEq

/-- `KMZFeature` from `src/lib/kmz-loader.ts`, with the nested
`properties`/`geometry` record flattened. -/
structure KMZFeature where
  name : String
  featureType : String
  diameter : Option JsNum
  origin : Option String
  approval_date : Option String
  withinRegion : Option String
  source : FeatureSource
  lon : JsNum
  lat : JsNum
deriving DecidableEq

/-- Split a character list at every character satisfying `p` (JavaScript
`String.prototype.split` with a single-character-class pattern, before the
empty-token filter). -/
def splitChars (p : Char → Bool) : List Char → List (List Char)
  | [] => [[]]
  | c :: rest =>
      let r := splitChars p rest
      if p c then [] :: r
      else
        match r with
        | t :: ts => (c :: t) :: ts
        | [] => [[c]]

/-- The coordinate-text tokenisation of `parseKML`:
`split(/[\s,]+/)` followed by dropping empty tokens. -/
def splitCoordFields (s : String) : List String :=
  ((splitChars (fun c => decide (c = ',') || c.isWhitespace) s.toList).map
    String.mk).filter (fun t => t.length > 0)

/-- Accumulator for the `ExtendedData` scan in `parseKML`. -/
structure ExtState where
  featureType : String
  diameter : Option JsNum
  origin : Option String
  approvalDate : Option String
deriving DecidableEq

/-- One step of the `SimpleData` loop in `parseKML` (kmz-loader version):
keys `feature_type`, `diameter`, `origin`, `approval_date`; an empty value is
falsy and leaves the accumulator unchanged, and a diameter that fails
`parseFloat` is dropped. -/
def extStep (st : ExtState) (d : SimpleData) : ExtState :=
  let value := jsTrim d.text
  if d.attr = some "feature_type" ∧ value ≠ "" then { st with featureType := value }
  else if d.attr = some "diameter" ∧ value ≠ "" then
    match jsParseFloat value with
    | some v => { st with diameter := some v }
    | none => st
  else if d.attr = some "origin" ∧ value ≠ "" then { st with origin := some value }
  else if d.attr = some "approval_date" ∧ value ≠ "" then { st with approvalDate := some value }
  else st

/-- The per-placemark body of the `parseKML` loop; `none` corresponds to the
`continue` branches that increment `skippedCount`. -/
def processPlacemark (p : Placemark) : Option KMZFeature :=
  match p.nameEl, p.coordsEl with
  | some nameText, some coordsText =>
      let name := jsTrim nameText
      let coords := splitCoordFields (jsTrim coordsText)
      if coords.length < 2 then none
      else
        match jsParseFloat (coords.getD 0 ""), jsParseFloat (coords.getD 1 "") with
        | some lon, some lat =>
            let ext := (p.extendedData.getD []).foldl extStep ⟨"Unknown", none, none, none⟩
            some { name := name, featureType := ext.featureType,
                   diameter := ext.diameter, origin := ext.origin,
                   approval_date := ext.approvalDate, withinRegion := none,
                   source := .kmz, lon := lon, lat := lat }
        | _, _ => none
  | _, _ => none

/-- The `parseKML` placemark loop: collects the parsed features in document
order and counts the skipped records. -/
def parseKMLLoop : List Placemark → List KMZFeature × ℕ
  | [] => ([], 0)
  | p :: rest =>
      let r := parseKMLLoop rest
      match processPlacemark p with
      | some f => (f :: r.1, r.2)
      | none => (r.1, r.2 + 1)

/-- `parseKML` from `src/lib/kmz-loader.ts`: an XML `parsererror` yields the
empty feature list; otherwise the placemark loop runs.  The second component
is the `skippedCount` the source reports for diagnostics. -/
def parseKML : KMLDoc → List KMZFeature × ℕ
  | .parseError => ([], 0)
  | .doc pms => parseKMLLoop pms

/-- The skip condition of `parseKML`, read off the claim: the record is
missing its name element, missing its coordinates element, or its first two
coordinate fields fail `parseFloat` (fewer than two fields included). -/
def isSkippedRecord (p : Placemark) : Bool :=
  match p.nameEl, p.coordsEl with
  | some _, some coordsText =>
      let coords := splitCoordFields (jsTrim coordsText)
      decide (coords.length < 2) ||
        (jsParseFloat (coords.getD 0 "")).isNone ||
        (jsParseFloat (coords.getD 1 "")).isNone
  | _, _ => true

/-- Curated ("famous") feature record shape consumed by the loader. -/
structure FamousFeature where
  name : String
  type : String
  diameter : Option ℚ
  lat : ℚ
  lon : ℚ
  withinRegion : Option String
deriving DecidableEq

/-- JavaScript `x || undefined` on an optional string: the empty string is
falsy and becomes `undefined`. -/
def orUndefined (o : Option String) : Option String :=
  match o with
  | some "" => none
  | x => x

/-- `convertFamousFeatures` from `src/lib/kmz-loader.ts`. -/
def convertFamousFeatures (famous : List FamousFeature) : List KMZFeature :=
  famous.map fun f =>
    { name := f.name, featureType := f.type, diameter := f.diameter.map .fin,
      origin := none, approval_date := none,
      withinRegion := orUndefined f.withinRegion, source := .famous,
      lon := .fin f.lon, lat := .fin f.lat }

/-- The curated features kept by the combination step of `loadPlanetFeatures`
(lines 215-218): those whose exact name is not carried by any archive
feature. -/
def uniqueCurated (kmzFeatures convertedFamous : List KMZFeature) : List KMZFeature :=
  let kmzNames := kmzFeatures.map (·.name)
  convertedFamous.filter (fun f => ! decide (f.name ∈ kmzNames))

/-- The name-based reconciliation of `loadPlanetFeatures` (archive features
first, then the curated features with fresh names). -/
def reconcile (kmzFeatures convertedFamous : List KMZFeature) : List KMZFeature :=
  kmzFeatures ++ uniqueCurated kmzFeatures convertedFamous

/-- Model of `Array.prototype.sort` with the comparator
`(a, b) => (a.properties?.name || '').localeCompare(b.properties?.name || '')`.
The host's `localeCompare` is the parameter `cmp`. -/
def sortByName (cmp : String → String → ℤ) (fs : List KMZFeature) : List KMZFeature :=
  fs.mergeSort (fun a b => decide (cmp a.name b.name ≤ 0))

/-- Environment outcome of the archive fetch in `loadPlanetFeatures`: a
rejected fetch (or failing unzip), a non-success HTTP status (thrown and
caught), a container with no `.kml` entry (thrown and caught), or the located
KML document. -/
inductive ArchiveFetch where
  | networkError
  | httpError (status : ℕ)
  | noKmlEntry
  | ok (doc : KMLDoc)
deriving DecidableEq

/-- `LoadFeaturesResult` from `src/lib/kmz-loader.ts`. -/
structure LoadFeaturesResult where
  features : List KMZFeature
  kmzCount : ℕ
  famousCount : ℕ
  total : ℕ
deriving DecidableEq

/-- `loadPlanetFeatures` from `src/lib/kmz-loader.ts` as a function of the
configured archive URL, the fetch outcome and the curated list.  A missing or
empty URL and every archive failure return the curated-only degraded result;
the success path reconciles, sorts and counts. -/
def loadPlanetFeatures (cmp : String → String → ℤ) (kmzUrl : Option String)
    (arch : ArchiveFetch) (famous : List FamousFeature) : LoadFeaturesResult :=
  let convertedFamous := convertFamousFeatures famous
  if kmzUrl.getD "" = "" then
    ⟨convertedFamous, 0, convertedFamous.length, convertedFamous.length⟩
  else
    match arch with
    | .ok doc =>
        let kmzFeatures := (parseKML doc).1
        let uniqueFamous := uniqueCurated kmzFeatures convertedFamous
        let allFeatures := sortByName cmp (kmzFeatures ++ uniqueFamous)
        ⟨allFeatures, kmzFeatures.length, uniqueFamous.length, allFeatures.length⟩
    | _ =>
        ⟨convertedFamous, 0, convertedFamous.length, convertedFamous.length⟩

end Kmz

namespace App

/-- A region from the static `GEOGRAPHIC_FEATURES` catalog
(`src/lib/geographic-features.ts`): a name and an axis-aligned bounding
box. -/
structure Region where
  name : String
  bounds : AreaSelection.BoundingBox
deriving DecidableEq

/-- The membership test inside `detectFeatureRegion` (`src/app.js` lines
333-334): plain closed intervals on both axes, with JavaScript numeric
comparisons.  There is no antimeridian branch here. -/
def regionContains (r : Region) (f : Kmz.KMZFeature) : Bool :=
  f.lat.ge (.fin r.bounds.south) && f.lat.le (.fin r.bounds.north) &&
  f.lon.ge (.fin r.bounds.west) && f.lon.le (.fin r.bounds.east)

/-- `detectFeatureRegion` from `src/app.js`: the name of the first region in
catalog order whose box contains the feature's point, else null.  A body with
no catalog behaves like the empty region list. -/
def detectFeatureRegion (regions : List Region) (f : Kmz.KMZFeature) : Option String :=
  (regions.find? (fun r => regionContains r f)).map (·.name)

/-- `assignRegionsToFeatures` from `src/app.js`: features whose
`withinRegion` is falsy (null, undefined or empty) receive the detection
result; others are untouched. -/
def assignRegionsToFeatures (regions : List Region) (featureList : List Kmz.KMZFeature) :
    List Kmz.KMZFeature :=
  featureList.map fun f =>
    if f.withinRegion.getD "" = "" then
      { f with withinRegion := detectFeatureRegion regions f }
    else f

/-- The famous-feature conversion inlined in `loadFeatures` (`src/app.js`
lines 212-222): no diameter, origin or approval date are carried, and a falsy
`withinRegion` becomes null. -/
def famousToFeature (f : Kmz.FamousFeature) : Kmz.KMZFeature :=
  { name := f.name, featureType := f.type, diameter := none,
    origin := none, approval_date := none,
    withinRegion := Kmz.orUndefined f.withinRegion, source := .famous,
    lon := .fin f.lon, lat := .fin f.lat }

/-- `loadFeatures` from `src/app.js` (lines 204-320) as a function of the
configured URL, the outcome of the fetch/unzip/parse prefix (`none` models
any throw inside the `try` block, i.e. network error, bad status, bad
container or missing KML entry), the region catalog and the curated list;
returns the final `features` list.  The archive combination step is the same
set-plus-filter reconciliation as in the loader module.  Note that the
missing-URL early return (lines 227-232) skips the final sort, while the
catch path falls through to it. -/
def loadFeatures (cmp : String → String → ℤ) (kmzUrl : Option String)
    (arch : Option (List Kmz.KMZFeature)) (regions : List Region)
    (famous : List Kmz.FamousFeature) : List Kmz.KMZFeature :=
  let famousFeatures := famous.map famousToFeature
  if kmzUrl.getD "" = "" then famousFeatures
  else
    let features :=
      match arch with
      | some kmzFeatures =>
          assignRegionsToFeatures regions (Kmz.reconcile kmzFeatures famousFeatures)
      | none => famousFeatures
    Kmz.sortByName cmp features

end App

/-- A record is skipped by the placemark loop exactly when `isSkippedRecord`
holds. -/
theorem processPlacemark_isNone (p : Kmz.Placemark) :
    (Kmz.processPlacemark p).isNone = Kmz.isSkippedRecord p := by
  rcases p with ⟨ne, ce, ed⟩
  cases ne with
  | none => cases ce <;> rfl
  | some nt =>
    cases ce with
    | none => rfl
    | some ct =>
      simp only [Kmz.processPlacemark, Kmz.isSkippedRecord]
      by_cases hlen : (Kmz.splitCoordFields (jsTrim ct)).length < 2
      · simp [hlen]
      · simp only [if_neg hlen]
        rcases h0 : jsParseFloat ((Kmz.splitCoordFields (jsTrim ct)).getD 0 "") with _ | l
        · simp [h0, hlen]
        · rcases h1 : jsParseFloat ((Kmz.splitCoordFields (jsTrim ct)).getD 1 "") with _ | m
          · simp [h0, h1, hlen]
          · simp [h0, h1, hlen]

/-- Every feature produced by the placemark loop is archive-sourced. -/
theorem processPlacemark_source {p : Kmz.Placemark} {f : Kmz.KMZFeature}
    (h : Kmz.processPlacemark p = some f) : f.source = .kmz := by
  unfold Kmz.processPlacemark at h
  split at h
  all_goals try exact Option.noConfusion h
  dsimp only [] at h
  repeat' split at h
  all_goals try exact Option.noConfusion h
  all_goals injection h with h2
  all_goals rw [← h2]

/-- Skip count and kept-feature count of the placemark loop, characterised by
the skip condition. -/
theorem parseKMLLoop_counts (pms : List Kmz.Placemark) :
    (Kmz.parseKMLLoop pms).2 = (pms.filter Kmz.isSkippedRecord).length ∧
    (Kmz.parseKMLLoop pms).1.length =
      (pms.filter (fun p => ! Kmz.isSkippedRecord p)).length := by
  induction pms with
  | nil => exact ⟨rfl, rfl⟩
  | cons p t ih =>
    cases hp : Kmz.processPlacemark p with
    | none =>
      have hs : Kmz.isSkippedRecord p = true := by
        rw [← processPlacemark_isNone, hp]; rfl
      refine ⟨?_, ?_⟩ <;>
        simp [Kmz.parseKMLLoop, hp, hs, List.filter_cons, ih.1, ih.2]
    | some f =>
      have hs : Kmz.isSkippedRecord p = false := by
        rw [← processPlacemark_isNone, hp]; rfl
      refine ⟨?_, ?_⟩ <;>
        simp [Kmz.parseKMLLoop, hp, hs, List.filter_cons, ih.1, ih.2]

/-- Claim C8 (amended): in `parseKML`, every placemark missing a name
element, missing a coordinates element, or whose first two coordinate fields
parse as NaN (this includes fewer than two fields; infinite values, however,
are accepted, which is the correction to the claim) is skipped without
aborting the parse, and the reported skip count equals the number of such
placemarks; the scenario document with coordinate text `"not,a,number"`
yields one feature and skip count 1, and a document that fails XML parsing
yields an empty feature list rather than an exception. -/
theorem claim_C8_skip_malformed (pms : List Kmz.Placemark) :
    (Kmz.parseKML (.doc pms)).2 = (pms.filter Kmz.isSkippedRecord).length ∧
    (Kmz.parseKML (.doc pms)).1.length =
      (pms.filter (fun p => ! Kmz.isSkippedRecord p)).length ∧
    Kmz.parseKML .parseError = ([], 0) ∧
    Kmz.parseKML (.doc [⟨some "Bad", some "not,a,number", none⟩,
        ⟨some "Good Crater", some "30,-12,0", none⟩]) =
      ([⟨"Good Crater", "Unknown", none, none, none, none, .kmz,
          .fin 30, .fin (-12)⟩], 1) :=
  ⟨(parseKMLLoop_counts pms).1, (parseKMLLoop_counts pms).2, rfl, by decide⟩

/-- Claim C8 counterexample: the coordinate field `Infinity` does not parse
as a finite number, yet the record carrying it is not skipped and the skip
count stays 0 — `parseKML` only rejects NaN, contradicting the claim's
"finite" wording. -/
theorem claim_C8_counterexample :
    jsParseFloat "Infinity" = some JsNum.posInf ∧
    JsNum.posInf.isFin = false ∧
    Kmz.parseKML (.doc [⟨some "Inf Feature", some "Infinity 5", none⟩]) =
      ([⟨"Inf Feature", "Unknown", none, none, none, none, .kmz,
          .posInf, .fin 5⟩], 0) :=
  ⟨by decide, rfl, by decide⟩

/-- Features produced by the placemark loop are archive-sourced. -/
theorem parseKMLLoop_source {pms : List Kmz.Placemark} {f : Kmz.KMZFeature}
    (hf : f ∈ (Kmz.parseKMLLoop pms).1) : f.source = Kmz.FeatureSource.kmz := by
  induction pms with
  | nil => cases hf
  | cons p t ih =>
    revert hf
    cases hp : Kmz.processPlacemark p with
    | none => exact fun hf => ih (by simpa [Kmz.parseKMLLoop, hp] using hf)
    | some g =>
      intro hf
      rcases List.mem_cons.mp (by simpa [Kmz.parseKMLLoop, hp] using hf) with rfl | hft
      · exact processPlacemark_source hp
      · exact ih hft

/-- With pairwise-distinct names, filtering a list for one member's name
keeps exactly that member. -/
theorem filter_name_eq_of_nodup {l : List Kmz.KMZFeature} {a : Kmz.KMZFeature}
    (hnd : (l.map Kmz.KMZFeature.name).Nodup) (ha : a ∈ l) :
    l.filter (fun x => x.name == a.name) = [a] := by
  induction l with
  | nil => cases ha
  | cons b t ih =>
    rw [List.map_cons, List.nodup_cons] at hnd
    rcases List.mem_cons.mp ha with rfl | hat
    · have ht : t.filter (fun x => x.name == a.name) = [] := by
        refine List.filter_eq_nil_iff.mpr fun x hx hbx => ?_
        exact hnd.1 (List.mem_map.mpr ⟨x, hx, beq_iff_eq.mp hbx⟩)
      simp [List.filter_cons, ht]
    · have hb : (b.name == a.name) = false := by
        refine beq_eq_false_iff_ne.mpr fun hba => ?_
        exact hnd.1 (hba ▸ List.mem_map.mpr ⟨a, hat, rfl⟩)
      simp [List.filter_cons, hb, ih hnd.2 hat]

/-- Claim C5: with pairwise-distinct archive names, the reconciled output
contains every archive feature, contains a curated feature exactly when no
archive feature carries its exact (case-sensitive) name, and contains
nothing else; filtering the output for the name of an archive feature yields
exactly that archive feature, and the parser and the curated conversion
stamp the `kmz` and `famous` source tags respectively. -/
theorem claim_C5_reconcile_priority (kmz fam : List Kmz.KMZFeature)
    (hnd : (kmz.map Kmz.KMZFeature.name).Nodup) :
    (∀ f ∈ kmz, f ∈ Kmz.reconcile kmz fam) ∧
    (∀ x, x ∈ Kmz.reconcile kmz fam ↔
        x ∈ kmz ∨ (x ∈ fam ∧ ∀ k ∈ kmz, k.name ≠ x.name)) ∧
    (∀ a ∈ kmz, (Kmz.reconcile kmz fam).filter (fun x => x.name == a.name) = [a]) ∧
    (∀ d : Kmz.KMLDoc, ∀ f ∈ (Kmz.parseKML d).1, f.source = Kmz.FeatureSource.kmz) ∧
    (∀ fam0 : List Kmz.FamousFeature, ∀ f ∈ Kmz.convertFamousFeatures fam0,
        f.source = Kmz.FeatureSource.famous) := by
  have hmem : ∀ x, x ∈ Kmz.reconcile kmz fam ↔
      x ∈ kmz ∨ (x ∈ fam ∧ ∀ k ∈ kmz, k.name ≠ x.name) := by
    intro x
    unfold Kmz.reconcile Kmz.uniqueCurated
    simp only [List.mem_append, List.mem_filter, Bool.not_eq_eq_eq_not, Bool.not_true,
      decide_eq_false_iff_not, List.mem_map, not_exists, not_and, ne_eq]
    try tauto
  refine ⟨fun f hf => (hmem f).mpr (Or.inl hf), hmem, ?_, ?_, ?_⟩
  · intro a ha
    unfold Kmz.reconcile
    rw [List.filter_append, filter_name_eq_of_nodup hnd ha]
    have hnil : (Kmz.uniqueCurated kmz fam).filter (fun x => x.name == a.name) = [] := by
      refine List.filter_eq_nil_iff.mpr fun x hx hxa => ?_
      unfold Kmz.uniqueCurated at hx
      have hnotin := (List.mem_filter.mp hx).2
      simp only [Bool.not_eq_eq_eq_not, Bool.not_true, decide_eq_false_iff_not,
        List.mem_map, not_exists, not_and] at hnotin
      exact hnotin a ha (beq_iff_eq.mp hxa).symm
    rw [hnil, List.append_nil]
  · rintro (_ | pms) f hf
    · cases hf
    · exact parseKMLLoop_source hf
  · intro fam0 f hf
    rcases List.mem_map.mp hf with ⟨g, _, rfl⟩
    rfl

/-- Claim C4 (amended): `assignRegionsToFeatures` preserves length; a feature
whose `withinRegion` is truthy is left untouched; a feature whose
`withinRegion` is unset receives the detection result, which is the name of
the first region in catalog order whose box contains the point under the
plain closed-interval test `regionContains` — not the §4.4 antimeridian-aware
test — and stays unset when no region's plain intervals contain the point. -/
theorem claim_C4_region_assignment (rs : List App.Region) (fs : List Kmz.KMZFeature)
    (i : ℕ) (h : i < fs.length) :
    (App.assignRegionsToFeatures rs fs).length = fs.length ∧
    ((fs.get ⟨i, h⟩).withinRegion.getD "" ≠ "" →
      (App.assignRegionsToFeatures rs fs)[i]? = some (fs.get ⟨i, h⟩)) ∧
    ((fs.get ⟨i, h⟩).withinRegion.getD "" = "" →
      (App.assignRegionsToFeatures rs fs)[i]? =
        some { fs.get ⟨i, h⟩ with
               withinRegion := App.detectFeatureRegion rs (fs.get ⟨i, h⟩) }) ∧
    (App.detectFeatureRegion rs (fs.get ⟨i, h⟩) = none ↔
      ∀ r ∈ rs, App.regionContains r (fs.get ⟨i, h⟩) = false) ∧
    (∀ n, App.detectFeatureRegion rs (fs.get ⟨i, h⟩) = some n ↔
      ∃ r pre post, rs = pre ++ r :: post ∧ r.name = n ∧
        App.regionContains r (fs.get ⟨i, h⟩) = true ∧
        ∀ r2 ∈ pre, App.regionContains r2 (fs.get ⟨i, h⟩) = false) := by
  set F := fs.get ⟨i, h⟩ with hF
  have hmap : ∀ g : Kmz.KMZFeature → Kmz.KMZFeature, (fs.map g)[i]? = some (g F) := by
    intro g
    rw [List.getElem?_map, List.getElem?_eq_getElem h]
    rfl
  refine ⟨by simp [App.assignRegionsToFeatures], ?_, ?_, ?_, ?_⟩
  · intro htruthy
    unfold App.assignRegionsToFeatures
    rw [hmap]
    rw [if_neg htruthy]
  · intro hfalsy
    unfold App.assignRegionsToFeatures
    rw [hmap]
    rw [if_pos hfalsy]
  · unfold App.detectFeatureRegion
    rw [Option.map_eq_none', List.find?_eq_none]
    constructor
    · intro hnone r hr
      have := hnone r hr
      simpa using this
    · intro hall r hr
      simp [hall r hr]
  · intro n
    unfold App.detectFeatureRegion
    constructor
    · intro hd
      rcases Option.map_eq_some'.mp hd with ⟨r, hr, hname⟩
      rcases List.find?_eq_some.mp hr with ⟨hpr, pre, post, hsplit, hpre⟩
      exact ⟨r, pre, post, hsplit, hname, hpr, fun r2 h2 => by simpa using hpre r2 h2⟩
    · rintro ⟨r, pre, post, hsplit, hname, hcont, hpre⟩
      have : rs.find? (fun r => App.regionContains r F) = some r := by
        rw [List.find?_eq_some]
        exact ⟨hcont, pre, post, hsplit, fun r2 h2 => by simp [hpre r2 h2]⟩
      rw [this, Option.map_some']
      exact congrArg some hname

/-- A region whose box crosses the antimeridian (`west > east`), used to
separate the §4.4 membership test from the plain-interval test of
`detectFeatureRegion`. -/
def wrapRegion : App.Region := ⟨"Wrap Region", ⟨20, 0, -170, 170⟩⟩

/-- A feature at latitude 10, longitude 179, with no assigned region. -/
def wrapFeature : Kmz.KMZFeature :=
  ⟨"Wrap Crater", "Crater", none, none, none, none, .kmz, .fin 179, .fin 10⟩

/-- Claim C4 counterexample: the antimeridian-crossing region contains the
point `(10, 179)` under the §4.4 membership test, yet `detectFeatureRegion`
finds no region and `assignRegionsToFeatures` leaves the feature without a
region — the assignment does not use the §4.4 test. -/
theorem claim_C4_counterexample :
    AreaSelection.isPointInBounds 10 179 wrapRegion.bounds = true ∧
    App.detectFeatureRegion [wrapRegion] wrapFeature = none ∧
    App.assignRegionsToFeatures [wrapRegion] [wrapFeature] = [wrapFeature] ∧
    wrapFeature.withinRegion = none := by
  refine ⟨by decide, by decide, by decide, rfl⟩

/-- The Mare Imbrium region of the Moon catalog. -/
def imbriumRegion : App.Region := ⟨"Mare Imbrium", ⟨48, 19, 5, -20⟩⟩

/-- The Pytheas crater, inside Mare Imbrium, with no assigned region. -/
def pytheasFeature : Kmz.KMZFeature :=
  ⟨"Pytheas", "Crater", none, none, none, none, .kmz, .fin (-20), .fin 20⟩

/-- Witness for the amended claim C4 at a one-region catalog containing the
feature's point in its plain intervals. -/
theorem claim_C4_region_assignment_witness :
    (App.assignRegionsToFeatures [imbriumRegion] [pytheasFeature]).length =
      [pytheasFeature].length ∧
    (([pytheasFeature].get ⟨0, by decide⟩).withinRegion.getD "" ≠ "" →
      (App.assignRegionsToFeatures [imbriumRegion] [pytheasFeature])[0]? =
        some ([pytheasFeature].get ⟨0, by decide⟩)) ∧
    (([pytheasFeature].get ⟨0, by decide⟩).withinRegion.getD "" = "" →
      (App.assignRegionsToFeatures [imbriumRegion] [pytheasFeature])[0]? =
        some { [pytheasFeature].get ⟨0, by decide⟩ with
          withinRegion := App.detectFeatureRegion [imbriumRegion]
            ([pytheasFeature].get ⟨0, by decide⟩) }) ∧
    (App.detectFeatureRegion [imbriumRegion] ([pytheasFeature].get ⟨0, by decide⟩) = none ↔
      ∀ r ∈ [imbriumRegion],
        App.regionContains r ([pytheasFeature].get ⟨0, by decide⟩) = false) ∧
    (∀ n, App.detectFeatureRegion [imbriumRegion]
        ([pytheasFeature].get ⟨0, by decide⟩) = some n ↔
      ∃ r pre post, [imbriumRegion] = pre ++ r :: post ∧ r.name = n ∧
        App.regionContains r ([pytheasFeature].get ⟨0, by decide⟩) = true ∧
        ∀ r2 ∈ pre, App.regionContains r2 ([pytheasFeature].get ⟨0, by decide⟩) = false) :=
  claim_C4_region_assignment [imbriumRegion] [pytheasFeature] 0 (by decide)

/-- `sortByName` output is pairwise non-decreasing under any comparator whose
non-positive cone is transitive and total (as `localeCompare`'s is). -/
theorem sortByName_pairwise (cmp : String → String → ℤ)
    (htrans : ∀ a b c : String, cmp a b ≤ 0 → cmp b c ≤ 0 → cmp a c ≤ 0)
    (htot : ∀ a b : String, cmp a b ≤ 0 ∨ cmp b a ≤ 0) (fs : List Kmz.KMZFeature) :
    (Kmz.sortByName cmp fs).Pairwise (fun a b => cmp a.name b.name ≤ 0) := by
  have h := @List.sorted_mergeSort Kmz.KMZFeature
    (fun a b => decide (cmp a.name b.name ≤ 0))
    (fun a b c hab hbc => by
      simp only [decide_eq_true_eq] at hab hbc ⊢
      exact htrans _ _ _ hab hbc)
    (fun a b => by
      rcases htot a.name b.name with hs | hs <;> simp [hs])
    fs
  exact h.imp (fun hr => by simpa using hr)

/-- Claim C6 (amended): with any valid comparator, the archive-success path
of both loaders sorts the reconciled list by name, and the `app.js` loader
also sorts after a failed fetch; but the degraded paths of the loader module
(missing URL or any archive failure) return the converted curated features
in input order, unsorted.  Determinism is definitional: both loaders are
pure functions of their inputs. -/
theorem claim_C6_sorted_output (cmp : String → String → ℤ)
    (htrans : ∀ a b c : String, cmp a b ≤ 0 → cmp b c ≤ 0 → cmp a c ≤ 0)
    (htot : ∀ a b : String, cmp a b ≤ 0 ∨ cmp b a ≤ 0) :
    (∀ (u : String) (d : Kmz.KMLDoc) (fam : List Kmz.FamousFeature), u ≠ "" →
      ((Kmz.loadPlanetFeatures cmp (some u) (.ok d) fam).features).Pairwise
        (fun a b => cmp a.name b.name ≤ 0)) ∧
    (∀ (u : String) (arch : Option (List Kmz.KMZFeature)) (rs : List App.Region)
        (fam : List Kmz.FamousFeature), u ≠ "" →
      (App.loadFeatures cmp (some u) arch rs fam).Pairwise
        (fun a b => cmp a.name b.name ≤ 0)) ∧
    (∀ (url : Option String) (arch : Kmz.ArchiveFetch) (fam : List Kmz.FamousFeature),
      (url.getD "" = "" ∨ ∀ d, arch ≠ Kmz.ArchiveFetch.ok d) →
      (Kmz.loadPlanetFeatures cmp url arch fam).features = Kmz.convertFamousFeatures fam) := by
  refine ⟨?_, ?_, ?_⟩
  · intro u d fam hu
    unfold Kmz.loadPlanetFeatures
    rw [if_neg (by simpa using hu)]
    exact sortByName_pairwise cmp htrans htot _
  · intro u arch rs fam hu
    unfold App.loadFeatures
    rw [if_neg (by simpa using hu)]
    cases arch <;> exact sortByName_pairwise cmp htrans htot _
  · intro url arch fam hfail
    unfold Kmz.loadPlanetFeatures
    rcases hfail with hurl | harch
    · rw [if_pos hurl]
    · by_cases hurl : url.getD "" = ""
      · rw [if_pos hurl]
      · rw [if_neg hurl]
        cases arch with
        | ok d => exact absurd rfl (harch d)
        | networkError => rfl
        | httpError s => rfl
        | noKmlEntry => rfl

/-- Lexicographic three-way comparison of character lists. -/
def charListCompare : List Char → List Char → ℤ
  | [], [] => 0
  | [], _ :: _ => -1
  | _ :: _, [] => 1
  | c :: cs, d :: ds => if c < d then -1 else if d < c then 1 else charListCompare cs ds

/-- A concrete model of `localeCompare` for the ASCII names appearing in the
examples: the sign of codepoint-lexicographic comparison. -/
def strCompare (a b : String) : ℤ := charListCompare a.toList b.toList

/-- Comparison against the empty list is never positive. -/
theorem charListCompare_nil_nonpos (bs : List Char) : charListCompare [] bs ≤ 0 := by
  cases bs <;> simp [charListCompare]

/-- Transitivity of the non-positive cone of `charListCompare`. -/
theorem charListCompare_nonpos_trans :
    ∀ as bs cs : List Char, charListCompare as bs ≤ 0 → charListCompare bs cs ≤ 0 →
      charListCompare as cs ≤ 0 := by
  intro as
  induction as with
  | nil => exact fun bs cs _ _ => charListCompare_nil_nonpos cs
  | cons a as ih =>
    intro bs cs h1 h2
    cases bs with
    | nil => simp [charListCompare] at h1
    | cons b bs =>
      cases cs with
      | nil => simp [charListCompare] at h2
      | cons c cs =>
        simp only [charListCompare] at h1 h2 ⊢
        rcases lt_trichotomy a b with hab | hab | hab
        · have hbc : b ≤ c := by
            by_contra hcb
            rw [if_neg (asymm (not_le.mp hcb)), if_pos (not_le.mp hcb)] at h2
            norm_num at h2
          have hac : a < c := lt_of_lt_of_le hab hbc
          rw [if_pos hac]
          norm_num
        · subst hab
          rw [if_neg (lt_irrefl a), if_neg (lt_irrefl a)] at h1
          rcases lt_trichotomy a c with hac | hac | hac
          · rw [if_pos hac]
            norm_num
          · subst hac
            rw [if_neg (lt_irrefl a), if_neg (lt_irrefl a)] at h2 ⊢
            exact ih bs cs h1 h2
          · rw [if_neg (asymm hac), if_pos hac] at h2
            norm_num at h2
        · rw [if_neg (asymm hab), if_pos hab] at h1
          norm_num at h1

/-- Totality of the non-positive cone of `charListCompare`. -/
theorem charListCompare_nonpos_total :
    ∀ as bs : List Char, charListCompare as bs ≤ 0 ∨ charListCompare bs as ≤ 0 := by
  intro as
  induction as with
  | nil => exact fun bs => Or.inl (charListCompare_nil_nonpos bs)
  | cons a as ih =>
    intro bs
    cases bs with
    | nil => exact Or.inr (charListCompare_nil_nonpos _)
    | cons b bs =>
      simp only [charListCompare]
      rcases lt_trichotomy a b with hab | hab | hab
      · left
        rw [if_pos hab]
        norm_num
      · subst hab
        rw [if_neg (lt_irrefl a), if_neg (lt_irrefl a), if_neg (lt_irrefl a),
          if_neg (lt_irrefl a)]
        exact ih bs
      · right
        rw [if_pos hab]
        norm_num

/-- Transitivity of the non-positive cone of `strCompare`. -/
theorem strCompare_trans (a b c : String) (h1 : strCompare a b ≤ 0)
    (h2 : strCompare b c ≤ 0) : strCompare a c ≤ 0 :=
  charListCompare_nonpos_trans a.toList b.toList c.toList h1 h2

/-- Totality of the non-positive cone of `strCompare`. -/
theorem strCompare_total (a b : String) : strCompare a b ≤ 0 ∨ strCompare b a ≤ 0 :=
  charListCompare_nonpos_total a.toList b.toList

/-- A curated feature list given out of name order. -/
def famousBeta : Kmz.FamousFeature := ⟨"Beta Crater", "Crater", none, 5, 5, none⟩

/-- Second element of the out-of-order curated list. -/
def famousAlpha : Kmz.FamousFeature := ⟨"Alpha Crater", "Crater", none, 6, 6, none⟩

/-- Claim C6 counterexample: when the archive fetch fails, the loader module
returns the curated features in input order — here `Beta Crater` before
`Alpha Crater` — so the degraded-path output is not sorted by name. -/
theorem claim_C6_counterexample :
    (Kmz.loadPlanetFeatures strCompare (some "https://example.org/moon.kmz")
        .networkError [famousBeta, famousAlpha]).features =
      Kmz.convertFamousFeatures [famousBeta, famousAlpha] ∧
    ¬ ((Kmz.loadPlanetFeatures strCompare (some "https://example.org/moon.kmz")
        .networkError [famousBeta, famousAlpha]).features.Pairwise
          (fun a b => strCompare a.name b.name ≤ 0)) := by
  refine ⟨rfl, ?_⟩
  intro hp
  have hfe : (Kmz.loadPlanetFeatures strCompare (some "https://example.org/moon.kmz")
      .networkError [famousBeta, famousAlpha]).features =
      [⟨"Beta Crater", "Crater", none, none, none, none, .famous, .fin 5, .fin 5⟩,
       ⟨"Alpha Crater", "Crater", none, none, none, none, .famous, .fin 6, .fin 6⟩] := rfl
  rw [hfe] at hp
  exact absurd (List.rel_of_pairwise_cons hp (List.mem_singleton.mpr rfl)) (by decide)

/-- Witness for the amended claim C6 at the comparator `strCompare`. -/
theorem claim_C6_sorted_output_witness :
    (∀ (u : String) (d : Kmz.KMLDoc) (fam : List Kmz.FamousFeature), u ≠ "" →
      ((Kmz.loadPlanetFeatures strCompare (some u) (.ok d) fam).features).Pairwise
        (fun a b => strCompare a.name b.name ≤ 0)) ∧
    (∀ (u : String) (arch : Option (List Kmz.KMZFeature)) (rs : List App.Region)
        (fam : List Kmz.FamousFeature), u ≠ "" →
      (App.loadFeatures strCompare (some u) arch rs fam).Pairwise
        (fun a b => strCompare a.name b.name ≤ 0)) ∧
    (∀ (url : Option String) (arch : Kmz.ArchiveFetch) (fam : List Kmz.FamousFeature),
      (url.getD "" = "" ∨ ∀ d, arch ≠ Kmz.ArchiveFetch.ok d) →
      (Kmz.loadPlanetFeatures strCompare url arch fam).features =
        Kmz.convertFamousFeatures fam) :=
  claim_C6_sorted_output strCompare strCompare_trans strCompare_total

/-- Claim C7: whenever the archive is unavailable — no URL configured, a
rejected fetch, a non-success status, or a container without a KML entry —
`loadPlanetFeatures` returns, without throwing, exactly the converted curated
features with `kmzCount = 0` and `famousCount = total = ` the number of
curated features. -/
theorem claim_C7_degraded_fallback (cmp : String → String → ℤ) (url : Option String)
    (arch : Kmz.ArchiveFetch) (fam : List Kmz.FamousFeature)
    (hfail : url.getD "" = "" ∨ ∀ d, arch ≠ Kmz.ArchiveFetch.ok d) :
    Kmz.loadPlanetFeatures cmp url arch fam =
      ⟨Kmz.convertFamousFeatures fam, 0, (Kmz.convertFamousFeatures fam).length,
        (Kmz.convertFamousFeatures fam).length⟩ ∧
    (Kmz.convertFamousFeatures fam).length = fam.length := by
  refine ⟨?_, by simp [Kmz.convertFamousFeatures]⟩
  unfold Kmz.loadPlanetFeatures
  rcases hfail with hurl | harch
  · rw [if_pos hurl]
  · by_cases hurl : url.getD "" = ""
    · rw [if_pos hurl]
    · rw [if_neg hurl]
      cases arch with
      | ok d => exact absurd rfl (harch d)
      | networkError => rfl
      | httpError s => rfl
      | noKmlEntry => rfl

/-- Aristarchus, one of the three curated Moon features of the scenario. -/
def aristarchus : Kmz.FamousFeature :=
  ⟨"Aristarchus", "Crater", none, 23.7, -47.4, some "Oceanus Procellarum"⟩

/-- Kepler, one of the three curated Moon features of the scenario. -/
def keplerFeature : Kmz.FamousFeature :=
  ⟨"Kepler", "Crater", none, 8.1, -38, some "Oceanus Procellarum"⟩

/-- Copernicus, one of the three curated Moon features of the scenario. -/
def copernicusFeature : Kmz.FamousFeature :=
  ⟨"Copernicus", "Crater", none, 9.7, -20.1, some "Oceanus Procellarum"⟩

/-- Witness for claim C7: a failing archive fetch (HTTP 404) with the three
curated Moon features returns exactly those three converted features with
`kmzCount = 0` and `famousCount = total = 3`. -/
theorem claim_C7_degraded_fallback_witness :
    (Kmz.loadPlanetFeatures strCompare (some "https://example.org/moon.kmz")
        (.httpError 404) [aristarchus, keplerFeature, copernicusFeature] =
      ⟨Kmz.convertFamousFeatures [aristarchus, keplerFeature, copernicusFeature], 0,
        (Kmz.convertFamousFeatures [aristarchus, keplerFeature, copernicusFeature]).length,
        (Kmz.convertFamousFeatures [aristarchus, keplerFeature, copernicusFeature]).length⟩ ∧
      (Kmz.convertFamousFeatures [aristarchus, keplerFeature, copernicusFeature]).length =
        [aristarchus, keplerFeature, copernicusFeature].length) ∧
    (Kmz.convertFamousFeatures [aristarchus, keplerFeature, copernicusFeature]).length = 3 :=
  ⟨claim_C7_degraded_fallback strCompare (some "https://example.org/moon.kmz")
      (.httpError 404) [aristarchus, keplerFeature, copernicusFeature]
      (Or.inr fun _ h => Kmz.ArchiveFetch.noConfusion h),
    rfl⟩

/-- Model of JavaScript `String.prototype.toLowerCase` on the character
list. -/
def jsToLower (s : String) : String := String.mk (s.toList.map Char.toLower)

/-- Decimal rendering of a rational for template literals (model of JS
number-to-string; exact for the integer values the source produces). -/
def ratToString (q : ℚ) : String := if q.den = 1 then toString q.num else toString q

/-- Rendering of a non-NaN JS number in a template literal. -/
def JsNum.toStr : JsNum → String
  | .fin q => ratToString q
  | .posInf => "Infinity"
  | .negInf => "-Infinity"

/-- JavaScript template interpolation of a possibly-undefined string. -/
def optToString : Option String → String
  | some s => s
  | none => "undefined"

namespace Analyzer

/-- One event produced by the scientific estimation model
(`FeatureAnalyzer`, `src/unnamed/part_004`). -/
structure AnalyzerEvent where
  phase : String
  years : ℚ
  description : String
  source : String
  confidence : String
deriving DecidableEq

/-- `volcanicModels.estimateAge`: Mars-only diameter-bucketed
formation/peak/late ages; null on any other body. -/
def volcanicEstimateAge (planet : Option String) (diameter : JsNum) :
    Option (ℚ × ℚ × ℚ) :=
  if planet = some "MARS" then
    if diameter.gt (.fin 200) then some (3700000000, 3000000000, 500000000)
    else some (3500000000, 3200000000, 2900000000)
  else none

/-- `estimateCraterAge`: diameter-bucketed crater ages per body, with a
2 Gy default for unmodelled bodies. -/
def estimateCraterAge (planet : Option String) (diameter : JsNum) : ℚ :=
  if planet = some "MARS" then
    if diameter.gt (.fin 100) then 4000000000
    else if diameter.gt (.fin 50) then 3700000000
    else if diameter.gt (.fin 20) then 3200000000
    else if diameter.gt (.fin 5) then 1500000000
    else 500000000
  else if planet = some "MOON" then
    if diameter.gt (.fin 100) then 3950000000
    else if diameter.gt (.fin 50) then 3700000000
    else if diameter.gt (.fin 20) then 2500000000
    else 800000000
  else 2000000000

/-- `classifyFromName`: type inferred from the lowercased name when the
feature type is missing. -/
def classifyFromName (name : String) : String :=
  let lowerName := jsToLower name
  if jsIncludes lowerName "mons" then "Mons"
  else if jsIncludes lowerName "crater" then "Crater"
  else if jsIncludes lowerName "vallis" then "Vallis"
  else if jsIncludes lowerName "mare" then "Mare"
  else if jsIncludes lowerName "planitia" then "Planitia"
  else if jsIncludes lowerName "planum" then "Planum"
  else "Unknown"

/-- The effective feature type used for routing:
`props.featureType || classifyFromName(props.name)`. -/
def effectiveType (f : Kmz.KMZFeature) : String :=
  if f.featureType = "" then classifyFromName f.name else f.featureType

/-- `analyzeCrater`: impact formation and modification at the estimated age,
an erosion event when older than 2 Gy, and the current state. -/
def analyzeCrater (props : Kmz.KMZFeature) (planet : Option String) : List AnalyzerEvent :=
  let diameter := jsOrDefault props.diameter 10
  let dstr := diameter.toStr
  let estimatedAge := estimateCraterAge planet diameter
  [⟨"Impact Formation", estimatedAge,
      s!"High-velocity asteroid/comet impact creates {dstr} km crater",
      "Crater chronology model", if diameter.gt (.fin 50) then "high" else "medium"⟩,
   ⟨"Crater Modification", estimatedAge,
      "Wall collapse, central peak rebound, ejecta emplacement",
      "Impact mechanics", "high"⟩] ++
  (if (2000000000 : ℚ) < estimatedAge then
    [⟨"Erosion Period", estimatedAge / 2,
        "Wind, water, and mass wasting modify crater morphology",
        "Erosion models", "medium"⟩]
   else []) ++
  [⟨"Current State", 0, s!"Well-preserved crater, {dstr} km diameter",
      "Current observations", "high"⟩]

/-- `analyzeVolcano`: four-phase shield history when the volcanic model
returns ages, and an empty list otherwise. -/
def analyzeVolcano (props : Kmz.KMZFeature) (planet : Option String) : List AnalyzerEvent :=
  let diameter := jsOrDefault props.diameter 100
  let dstr := diameter.toStr
  match volcanicEstimateAge planet diameter with
  | some ages =>
      [⟨"Volcanic Province Formation", ages.1,
          "Regional mantle upwelling initiates volcanism", "Tectonic models", "medium"⟩,
       ⟨"Shield Building", ages.2.1,
          "Repeated basaltic eruptions construct main edifice",
          "Volcanic stratigraphy", "high"⟩,
       ⟨"Late Activity", ages.2.2,
          "Declining eruption rate, summit caldera formation",
          "Crater counting on flows", "medium"⟩,
       ⟨"Current State", 0, s!"Shield volcano, {dstr} km diameter, possibly dormant",
          "Modern imaging", "high"⟩]
  | none => []

/-- `analyzeChannel`: fixed Mars-only four-phase narrative. -/
def analyzeChannel (_props : Kmz.KMZFeature) (planet : Option String) : List AnalyzerEvent :=
  if planet = some "MARS" then
    [⟨"Tectonic Initiation", 3700000000,
        "Crustal stress creates initial fractures", "Structural geology", "medium"⟩,
     ⟨"Water Flow Period", 3500000000,
        "Liquid water carves and widens channel system", "Hydrological models", "medium"⟩,
     ⟨"Desiccation", 3000000000,
        "Climate change causes water to disappear", "Climate models", "low"⟩,
     ⟨"Current State", 0,
        "Dry channel preserved in thin atmosphere", "Current observations", "high"⟩]
  else []

/-- `analyzeMare`: fixed four-phase lunar mare narrative on every body. -/
def analyzeMare (_props : Kmz.KMZFeature) (_planet : Option String) : List AnalyzerEvent :=
  [⟨"Basin Impact", 3900000000,
      "Large impact excavates basin during Late Heavy Bombardment",
      "Lunar chronology", "high"⟩,
   ⟨"Mare Flooding", 3700000000,
      "Basaltic lava from mantle floods low-lying basin", "Apollo sample dating", "high"⟩,
   ⟨"Volcanic Cessation", 3200000000,
      "Lunar mantle cools, ending volcanic activity", "Thermal models", "high"⟩,
   ⟨"Current State", 0,
      "Dark basaltic plain, heavily cratered", "LRO imaging", "high"⟩]

/-- `analyzePlain`: Mars-only three-phase plains narrative. -/
def analyzePlain (props : Kmz.KMZFeature) (planet : Option String) : List AnalyzerEvent :=
  let diameter := jsOrDefault props.diameter 500
  let dstr := diameter.toStr
  if planet = some "MARS" then
    [⟨"Surface Formation", 3500000000,
        "Volcanic flows or sedimentary deposition creates plains",
        "Geological mapping", "medium"⟩,
     ⟨"Modification", 3000000000,
        "Wind erosion and dust deposition alter surface", "Aeolian studies", "medium"⟩,
     ⟨"Current State", 0, s!"Smooth plains, {dstr} km extent", "Orbital imaging", "high"⟩]
  else []

/-- `generateGenericTimeline`: two-event fallback on every body. -/
def generateGenericTimeline (_props : Kmz.KMZFeature) (planet : Option String) :
    List AnalyzerEvent :=
  let pstr := optToString planet
  [⟨"Formation", 3500000000,
      "Geological feature formed during planetary evolution", "Estimated", "low"⟩,
   ⟨"Current State", 0, s!"Observable feature on {pstr}", "Observations", "high"⟩]

/-- `analyzeFeature`: route by substring tests on the effective feature
type, in source order. -/
def analyzeFeature (feature : Kmz.KMZFeature) (planet : Option String) : List AnalyzerEvent :=
  let featureType := effectiveType feature
  if jsIncludes featureType "Crater" then analyzeCrater feature planet
  else if jsIncludes featureType "Mons" || jsIncludes featureType "Tholus" ||
      jsIncludes featureType "Patera" then analyzeVolcano feature planet
  else if jsIncludes featureType "Vallis" || jsIncludes featureType "Fossa" then
    analyzeChannel feature planet
  else if jsIncludes featureType "Mare" then analyzeMare feature planet
  else if jsIncludes featureType "Planitia" || jsIncludes featureType "Planum" then
    analyzePlain feature planet
  else generateGenericTimeline feature planet

/-- The routing outcome of `analyzeFeature`'s dispatch chain. -/
inductive RouteKind where
  | crater
  | volcano
  | channel
  | mare
  | plain
  | generic
deriving DecidableEq

/-- The dispatch chain of `analyzeFeature` as a classifier. -/
def route (featureType : String) : RouteKind :=
  if jsIncludes featureType "Crater" then .crater
  else if jsIncludes featureType "Mons" || jsIncludes featureType "Tholus" ||
      jsIncludes featureType "Patera" then .volcano
  else if jsIncludes featureType "Vallis" || jsIncludes featureType "Fossa" then .channel
  else if jsIncludes featureType "Mare" then .mare
  else if jsIncludes featureType "Planitia" || jsIncludes featureType "Planum" then .plain
  else .generic

end Analyzer

/-- `analyzeFeature` dispatches according to `route` on the effective type. -/
theorem analyzeFeature_route (f : Kmz.KMZFeature) (p : Option String) :
    Analyzer.analyzeFeature f p =
      match Analyzer.route (Analyzer.effectiveType f) with
      | .crater => Analyzer.analyzeCrater f p
      | .volcano => Analyzer.analyzeVolcano f p
      | .channel => Analyzer.analyzeChannel f p
      | .mare => Analyzer.analyzeMare f p
      | .plain => Analyzer.analyzePlain f p
      | .generic => Analyzer.generateGenericTimeline f p := by
  unfold Analyzer.analyzeFeature Analyzer.route
  by_cases h1 : jsIncludes (Analyzer.effectiveType f) "Crater"
  · simp [h1]
  · by_cases h2 : (jsIncludes (Analyzer.effectiveType f) "Mons" ||
        jsIncludes (Analyzer.effectiveType f) "Tholus" ||
        jsIncludes (Analyzer.effectiveType f) "Patera") = true
    · simp [h1, h2]
    · by_cases h3 : (jsIncludes (Analyzer.effectiveType f) "Vallis" ||
          jsIncludes (Analyzer.effectiveType f) "Fossa") = true
      · simp [h1, h2, h3]
      · by_cases h4 : jsIncludes (Analyzer.effectiveType f) "Mare"
        · simp [h1, h2, h3, h4]
        · by_cases h5 : (jsIncludes (Analyzer.effectiveType f) "Planitia" ||
              jsIncludes (Analyzer.effectiveType f) "Planum") = true
          · simp [h1, h2, h3, h4, h5]
          · simp [h1, h2, h3, h4, h5]

/-- Crater age estimates are strictly positive on every body. -/
theorem estimateCraterAge_pos (p : Option String) (d : JsNum) :
    0 < Analyzer.estimateCraterAge p d := by
  unfold Analyzer.estimateCraterAge
  repeat' split
  all_goals norm_num

/-- Claim C3 (amended): `analyzeFeature` returns a non-empty list containing
a formation-era event (`years > 0`) and a `Current State` event with
`years = 0` for crater-, mare-, and unrouted-type features on every body,
and for every feature type on `MARS`; volcano-, channel-, and plain-type
features on other bodies yield an empty list instead (the tier is not a
universal fallback). -/
theorem claim_C3_estimation_model (f : Kmz.KMZFeature) (p : Option String)
    (h : p = some "MARS" ∨ Analyzer.route (Analyzer.effectiveType f) = .crater ∨
         Analyzer.route (Analyzer.effectiveType f) = .mare ∨
         Analyzer.route (Analyzer.effectiveType f) = .generic) :
    Analyzer.analyzeFeature f p ≠ [] ∧
    (∃ e ∈ Analyzer.analyzeFeature f p, 0 < e.years) ∧
    (∃ e ∈ Analyzer.analyzeFeature f p, e.phase = "Current State" ∧ e.years = 0) := by
  rcases hr : Analyzer.route (Analyzer.effectiveType f) with _ | _ | _ | _ | _ | _
  · -- crater
    have heq : Analyzer.analyzeFeature f p = Analyzer.analyzeCrater f p := by
      rw [analyzeFeature_route, hr]
    have hpos := estimateCraterAge_pos p (jsOrDefault f.diameter 10)
    rw [heq]
    unfold Analyzer.analyzeCrater
    refine ⟨by simp, ?_, ?_⟩
    · exact ⟨_, List.mem_append_left _ (List.mem_append_left _ (List.mem_cons_self _ _)), hpos⟩
    · exact ⟨_, List.mem_append_right _ (List.mem_cons_self _ _), rfl, rfl⟩
  · -- volcano: only reachable on MARS
    have hp : p = some "MARS" := by
      rcases h with hp | hc | hc | hc
      · exact hp
      all_goals rw [hr] at hc; cases hc
    subst hp
    have heq : Analyzer.analyzeFeature f (some "MARS") =
        Analyzer.analyzeVolcano f (some "MARS") := by
      rw [analyzeFeature_route, hr]
    rw [heq]
    rcases hgt : (jsOrDefault f.diameter 100).gt (.fin 200) with _ | _ <;>
      simp only [Analyzer.analyzeVolcano, Analyzer.volcanicEstimateAge, hgt,
        Bool.false_eq_true, if_false, if_true, reduceIte] <;>
      refine ⟨by simp, ⟨_, List.mem_cons_self _ _, by norm_num⟩,
        ⟨_, List.mem_cons_of_mem _ (List.mem_cons_of_mem _ (List.mem_cons_of_mem _
          (List.mem_cons_self _ _))), rfl, rfl⟩⟩
  · -- channel: only reachable on MARS
    have hp : p = some "MARS" := by
      rcases h with hp | hc | hc | hc
      · exact hp
      all_goals rw [hr] at hc; cases hc
    subst hp
    have heq : Analyzer.analyzeFeature f (some "MARS") =
        Analyzer.analyzeChannel f (some "MARS") := by
      rw [analyzeFeature_route, hr]
    rw [heq]
    unfold Analyzer.analyzeChannel
    refine ⟨by simp, ⟨_, List.mem_cons_self _ _, by norm_num⟩,
      ⟨_, List.mem_cons_of_mem _ (List.mem_cons_of_mem _ (List.mem_cons_of_mem _
        (List.mem_cons_self _ _))), rfl, rfl⟩⟩
  · -- mare
    have heq : Analyzer.analyzeFeature f p = Analyzer.analyzeMare f p := by
      rw [analyzeFeature_route, hr]
    rw [heq]
    unfold Analyzer.analyzeMare
    refine ⟨by simp, ⟨_, List.mem_cons_self _ _, by norm_num⟩,
      ⟨_, List.mem_cons_of_mem _ (List.mem_cons_of_mem _ (List.mem_cons_of_mem _
        (List.mem_cons_self _ _))), rfl, rfl⟩⟩
  · -- plain: only reachable on MARS
    have hp : p = some "MARS" := by
      rcases h with hp | hc | hc | hc
      · exact hp
      all_goals rw [hr] at hc; cases hc
    subst hp
    have heq : Analyzer.analyzeFeature f (some "MARS") =
        Analyzer.analyzePlain f (some "MARS") := by
      rw [analyzeFeature_route, hr]
    rw [heq]
    unfold Analyzer.analyzePlain
    refine ⟨by simp, ⟨_, List.mem_cons_self _ _, by norm_num⟩,
      ⟨_, List.mem_cons_of_mem _ (List.mem_cons_of_mem _ (List.mem_cons_self _ _)),
        rfl, rfl⟩⟩
  · -- generic
    have heq : Analyzer.analyzeFeature f p = Analyzer.generateGenericTimeline f p := by
      rw [analyzeFeature_route, hr]
    rw [heq]
    unfold Analyzer.generateGenericTimeline
    refine ⟨by simp, ⟨_, List.mem_cons_self _ _, by norm_num⟩,
      ⟨_, List.mem_cons_of_mem _ (List.mem_cons_self _ _), rfl, rfl⟩⟩

/-- A valley feature on the Moon. -/
def moonVallis : Kmz.KMZFeature :=
  ⟨"Vallis Schroteri", "Vallis", none, none, none, none, .kmz, .fin (-51), .fin 26⟩

/-- Claim C3 counterexample: a `Vallis`-type feature on `MOON` makes
`analyzeFeature` return the empty list — no formation event, no
current-state event — because the channel model only covers `MARS`. -/
theorem claim_C3_counterexample :
    Analyzer.analyzeFeature moonVallis (some "MOON") = [] := by decide

/-- Tycho, a crater-type feature used to witness the amended claim C3 on a
non-Mars body. -/
def tychoFeature : Kmz.KMZFeature :=
  ⟨"Tycho", "Crater", some (.fin 85), none, none, none, .kmz, .fin (-11), .fin (-43)⟩

/-- Witness for the amended claim C3: the crater route on the Moon produces
a non-empty timeline with a positive-age event and a `Current State` event
at zero years. -/
theorem claim_C3_estimation_model_witness :
    Analyzer.analyzeFeature tychoFeature (some "MOON") ≠ [] ∧
    (∃ e ∈ Analyzer.analyzeFeature tychoFeature (some "MOON"), 0 < e.years) ∧
    (∃ e ∈ Analyzer.analyzeFeature tychoFeature (some "MOON"),
      e.phase = "Current State" ∧ e.years = 0) :=
  claim_C3_estimation_model tychoFeature (some "MOON") (Or.inr (Or.inl (by decide)))

/-- An archive-sourced Tycho record. -/
def tychoArchive : Kmz.KMZFeature :=
  ⟨"Tycho", "Crater", some (.fin 85), some "Named after Tycho Brahe", none, none, .kmz,
    .fin (-11), .fin (-43)⟩

/-- A curated Tycho record sharing the archive record's exact name. -/
def tychoCurated : Kmz.KMZFeature :=
  ⟨"Tycho", "Crater", none, none, none, some "Southern Highlands", .famous,
    .fin (-11), .fin (-43)⟩

/-- A curated Kepler record whose name no archive record carries. -/
def keplerCurated : Kmz.KMZFeature :=
  ⟨"Kepler", "Crater", none, none, none, none, .famous, .fin (-38), .fin 8⟩

/-- Witness for claim C5 on a one-element archive and a two-element curated
list sharing the name `Tycho`. -/
theorem claim_C5_reconcile_priority_witness :
    (∀ f ∈ [tychoArchive], f ∈ Kmz.reconcile [tychoArchive] [tychoCurated, keplerCurated]) ∧
    (∀ x, x ∈ Kmz.reconcile [tychoArchive] [tychoCurated, keplerCurated] ↔
        x ∈ [tychoArchive] ∨ (x ∈ [tychoCurated, keplerCurated] ∧
          ∀ k ∈ [tychoArchive], k.name ≠ x.name)) ∧
    (∀ a ∈ [tychoArchive],
        (Kmz.reconcile [tychoArchive] [tychoCurated, keplerCurated]).filter
          (fun x => x.name == a.name) = [a]) ∧
    (∀ d : Kmz.KMLDoc, ∀ f ∈ (Kmz.parseKML d).1, f.source = Kmz.FeatureSource.kmz) ∧
    (∀ fam0 : List Kmz.FamousFeature, ∀ f ∈ Kmz.convertFamousFeatures fam0,
        f.source = Kmz.FeatureSource.famous) :=
  claim_C5_reconcile_priority [tychoArchive] [tychoCurated, keplerCurated] (by decide)

namespace App

/-- A timeline event in the common shape produced by `generateTimeline`
(`src/app.js`): display timeframe and numeric years-before-present (null
when unparseable). -/
structure TimelineEvent where
  phase : String
  timeframe : String
  description : String
  source : String
  url : Option String
  years : Option ℚ
deriving DecidableEq

/-- An entry of the static `TIMELINE_DATA` reference table (structured
override): phase, absolute years and provenance. -/
structure RawTimelineEvent where
  phase : String
  years : ℚ
  description : String
  source : String
deriving DecidableEq

/-- `Number.prototype.toFixed(1)` for the nonnegative values produced here:
round half away from zero at one decimal. -/
def toFixed1 (q : ℚ) : String :=
  let n : ℤ := Int.floor (q * 10 + 1 / 2)
  toString (n / 10) ++ "." ++ toString (n % 10)

/-- `Number.prototype.toFixed(0)` for the nonnegative values produced here. -/
def toFixed0 (q : ℚ) : String :=
  toString (Int.floor (q + 1 / 2))

/-- `formatYearsToTimeframe` from `src/app.js`: display string for a
years-before-present number. -/
def formatYearsToTimeframe (years : ℚ) : String :=
  if years = 0 then "Present day"
  else if years ≥ 1000000000 then toFixed1 (years / 1000000000) ++ " billion years ago"
  else if years ≥ 1000000 then toFixed0 (years / 1000000) ++ " million years ago"
  else if years ≥ 1000 then toFixed0 (years / 1000) ++ " thousand years ago"
  else ratToString years ++ " years ago"

/-- One attempted match of the pattern
`([\d.]+)(?:-[\d.]+)?\s*<unit>` at the head of `cs` (the unit is matched
case-insensitively); returns the `parseFloat` of the first captured group. -/
def tryNumberUnitAt (unit : List Char) (cs : List Char) : Option ℚ :=
  let ds := cs.takeWhile (fun c => c.isDigit || c = '.')
  if ds.isEmpty then none
  else
    let rest1 := cs.dropWhile (fun c => c.isDigit || c = '.')
    let rest2 : List Char :=
      match rest1 with
      | '-' :: r =>
          let ds2 := r.takeWhile (fun c => c.isDigit || c = '.')
          if ds2.isEmpty then '-' :: r else r.dropWhile (fun c => c.isDigit || c = '.')
      | r => r
    let rest3 := rest2.dropWhile (·.isWhitespace)
    if (rest3.take unit.length).map Char.toLower = unit then
      match jsParseFloat (String.mk ds) with
      | some (.fin q) => some q
      | _ => none
    else none

/-- Leftmost search for the number-before-unit pattern (model of the
case-insensitive regex search in `parseTimeframeToYears`). -/
def searchNumberUnit (unit : List Char) : List Char → Option ℚ
  | [] => none
  | c :: rest =>
      match tryNumberUnitAt unit (c :: rest) with
      | some q => some q
      | none => searchNumberUnit unit rest

/-- `parseTimeframeToYears` from `src/app.js`: falsy or `Present day` means
0; otherwise the first billion/million/thousand magnitude found; `Ancient`
phrasing defaults to 4 billion; anything else is null. -/
def parseTimeframeToYears (timeframe : String) : Option ℚ :=
  if timeframe = "" ∨ timeframe = "Present day" then some 0
  else
    match searchNumberUnit "billion".toList timeframe.toList with
    | some q => some (q * 1000000000)
    | none =>
      match searchNumberUnit "million".toList timeframe.toList with
      | some q => some (q * 1000000)
      | none =>
        match searchNumberUnit "thousand".toList timeframe.toList with
        | some q => some (q * 1000)
        | none =>
          if jsIncludes (jsToLower timeframe) "ancient" ∨
              jsIncludes (jsToLower timeframe) "billions of years ago" then
            some 4000000000
          else none

/-- `getEstimatedFormationTime` from `src/app.js`. -/
def getEstimatedFormationTime (featureType : String) (planetName : Option String) : String :=
  let t := jsToLower featureType
  if planetName = some "MOON" then
    if jsIncludes t "mare" then "~3.0-3.8 billion years ago"
    else if jsIncludes t "crater" then "~0.1-4 billion years ago"
    else "~3-4 billion years ago"
  else if planetName = some "MARS" then
    if jsIncludes t "mons" ∨ jsIncludes t "volcan" then "~3.5 billion years ago"
    else if jsIncludes t "vallis" ∨ jsIncludes t "channel" then "~3.5 billion years ago"
    else if jsIncludes t "crater" then "~0.1-4 billion years ago"
    else "~3-4 billion years ago"
  else "Ancient (billions of years ago)"

/-- `getFormationProcess` from `src/app.js`. -/
def getFormationProcess (featureType : String) : String :=
  let t := jsToLower featureType
  if jsIncludes t "crater" then "meteorite impact"
  else if jsIncludes t "mons" ∨ jsIncludes t "tholus" then "volcanic activity"
  else if jsIncludes t "mare" then "ancient lava flows"
  else if jsIncludes t "vallis" then "water or lava erosion"
  else if jsIncludes t "chasma" then "tectonic activity"
  else "geological processes"

/-- The Wikipedia data assembled by `fetchWikipediaTimeline` on full
success: page title, intro extract, full-text extract, raw wikitext (whose
infobox parse feeds the tier-2 extraction) and page URL. -/
structure WikiData where
  pageTitle : String
  extract : String
  fullText : String
  wikitext : String
  url : String
deriving DecidableEq

/-- Environment outcome of the knowledge-base request sequence in
`fetchWikipediaTimeline`: the search request always goes out first; each
later stage can fail (caught, returning null) after its request was
issued. -/
inductive WikiNet where
  | searchFails
  | searchNoResult
  | revisionsFail (title : String)
  | fullTextFail (title : String)
  | introFail (title : String)
  | success (data : WikiData)
deriving DecidableEq

/-- `fetchWikipediaTimeline` from `src/app.js` as a function of the network
outcome: number of HTTP requests issued (opensearch, then wikitext
revisions, full extract and intro extract in sequence) paired with the data,
null on any failure. -/
def fetchWikipediaTimeline : WikiNet → ℕ × Option WikiData
  | .searchFails => (1, none)
  | .searchNoResult => (1, none)
  | .revisionsFail _ => (2, none)
  | .fullTextFail _ => (3, none)
  | .introFail _ => (4, none)
  | .success d => (4, some d)

/-- Lookup in the static `TIMELINE_DATA` table keyed by body and feature
name; an undefined body indexes nothing. -/
def tdLookup (td : List ((String × String) × List RawTimelineEvent))
    (planet : Option String) (name : String) : Option (List RawTimelineEvent) :=
  match planet with
  | none => none
  | some p => td.lookup (p, name)

/-- The conversion `generateTimeline` applies to each structured-override
entry (`src/app.js` lines 742-748). -/
def convertStructuredEvent (e : RawTimelineEvent) : TimelineEvent :=
  ⟨e.phase, formatYearsToTimeframe e.years, e.description, e.source, none, some e.years⟩

/-- Tiers 3 and below of `generateTimeline` (`src/app.js` lines 863-897):
the scientific analyzer when loaded and non-empty, else the generic
two-event fallback. -/
def generateTimelineTier3 (analyzerLoaded : Bool) (planet : Option String)
    (feature : Kmz.KMZFeature) (featureType : String) : List TimelineEvent :=
  let analyzed := if analyzerLoaded then Analyzer.analyzeFeature feature planet else []
  if analyzed.length > 0 then
    analyzed.map fun e =>
      ⟨e.phase, formatYearsToTimeframe e.years, e.description,
        e.source ++ (if e.confidence ≠ "" then " (" ++ e.confidence ++ " confidence)" else ""),
        none, some e.years⟩
  else
    let formationTime := getEstimatedFormationTime featureType planet
    [⟨"Formation", formationTime,
        featureType ++ " formed through " ++ getFormationProcess featureType,
        "Estimated", none, parseTimeframeToYears formationTime⟩,
     ⟨"Current State", "Present day",
        featureType ++ " with " ++
          (match feature.diameter with
           | some d => if d.isFalsy then "unknown dimensions" else d.toStr ++ " km diameter"
           | none => "unknown dimensions"),
        "USGS Data", none, some 0⟩]

/-- `generateTimeline` from `src/app.js`: the structured override is
consulted first and returned converted when present; otherwise Wikipedia
data with a truthy full text feeds the tier-2 extraction (whose body, lines
752-861 together with `parseInfobox`, is taken here as the parameter
`tier2` — no claim depends on its internals); otherwise the scientific
analyzer or the generic fallback answers. -/
def generateTimeline (td : List ((String × String) × List RawTimelineEvent))
    (tier2 : WikiData → List TimelineEvent) (analyzerLoaded : Bool)
    (planet : Option String) (feature : Kmz.KMZFeature)
    (wikiData : Option WikiData) : List TimelineEvent :=
  match tdLookup td planet feature.name with
  | some structuredTimeline => structuredTimeline.map convertStructuredEvent
  | none =>
      match wikiData with
      | some wd =>
          if wd.fullText ≠ "" then tier2 wd
          else generateTimelineTier3 analyzerLoaded planet feature
            (if feature.featureType = "" then "Unknown" else feature.featureType)
      | none => generateTimelineTier3 analyzerLoaded planet feature
          (if feature.featureType = "" then "Unknown" else feature.featureType)

/-- The per-resolution cache key `` `${currentPlanet?.usgs_name}_${props.name}` ``. -/
def cacheKey (planet : Option String) (name : String) : String :=
  optToString planet ++ "_" ++ name

/-- Outcome of one timeline resolution in `showFeatureDetails`: requests
issued, timeline displayed, cache afterwards. -/
structure ResolveResult where
  requests : ℕ
  timeline : List TimelineEvent
  cache : List (String × List TimelineEvent)
deriving DecidableEq

/-- The timeline-resolution step of `showFeatureDetails` (`src/app.js` lines
1028-1037, reached for a notable feature outside comparison mode): a cache
hit answers directly; on a miss the Wikipedia fetch is issued first —
before `generateTimeline` ever consults the structured override — and the
generated timeline is stored. -/
def resolveTimeline (td : List ((String × String) × List RawTimelineEvent))
    (tier2 : WikiData → List TimelineEvent) (analyzerLoaded : Bool)
    (cache : List (String × List TimelineEvent)) (planet : Option String)
    (feature : Kmz.KMZFeature) (net : WikiNet) : ResolveResult :=
  match cache.lookup (cacheKey planet feature.name) with
  | some t => ⟨0, t, cache⟩
  | none =>
      ⟨(fetchWikipediaTimeline net).1,
       generateTimeline td tier2 analyzerLoaded planet feature (fetchWikipediaTimeline net).2,
       (cacheKey planet feature.name,
        generateTimeline td tier2 analyzerLoaded planet feature
          (fetchWikipediaTimeline net).2) :: cache⟩

end App

/-- Every knowledge-base interaction issues at least the search request. -/
theorem fetchWikipediaTimeline_requests_pos (net : App.WikiNet) :
    1 ≤ (App.fetchWikipediaTimeline net).1 := by
  cases net <;> simp [App.fetchWikipediaTimeline]

/-- Claim C1 (amended): on a cache miss for a feature with a structured
override for `(body, name)`, the resolution returns exactly the override's
entries converted to the common TimelineEvent shape, and the result is
independent of the knowledge-base response, the extraction behaviour and the
analyzer; inside `generateTimeline` the override bypasses every other tier
for any Wikipedia data.  However — the correction — at least one
knowledge-base request is still issued, because `showFeatureDetails` fetches
before `generateTimeline` consults the override. -/
theorem claim_C1_structured_override
    (td : List ((String × String) × List App.RawTimelineEvent))
    (tier2 tier2b : App.WikiData → List App.TimelineEvent) (ana anab : Bool)
    (planet : Option String) (f : Kmz.KMZFeature) (net netb : App.WikiNet)
    (cache : List (String × List App.TimelineEvent))
    (evs : List App.RawTimelineEvent)
    (hov : App.tdLookup td planet f.name = some evs)
    (hmiss : cache.lookup (App.cacheKey planet f.name) = none) :
    (App.resolveTimeline td tier2 ana cache planet f net).timeline =
      evs.map App.convertStructuredEvent ∧
    (App.resolveTimeline td tier2 ana cache planet f net).timeline =
      (App.resolveTimeline td tier2b anab cache planet f netb).timeline ∧
    1 ≤ (App.resolveTimeline td tier2 ana cache planet f net).requests ∧
    (∀ wd, App.generateTimeline td tier2 ana planet f wd =
      evs.map App.convertStructuredEvent) := by
  have hgen : ∀ (t2 : App.WikiData → List App.TimelineEvent) (a : Bool)
      (wd : Option App.WikiData), App.generateTimeline td t2 a planet f wd =
        evs.map App.convertStructuredEvent := by
    intro t2 a wd
    unfold App.generateTimeline
    rw [hov]
  have hres : ∀ (t2 : App.WikiData → List App.TimelineEvent) (a : Bool)
      (n : App.WikiNet), App.resolveTimeline td t2 a cache planet f n =
        ⟨(App.fetchWikipediaTimeline n).1,
         App.generateTimeline td t2 a planet f (App.fetchWikipediaTimeline n).2,
         (App.cacheKey planet f.name,
          App.generateTimeline td t2 a planet f (App.fetchWikipediaTimeline n).2) ::
            cache⟩ := by
    intro t2 a n
    unfold App.resolveTimeline
    rw [hmiss]
  refine ⟨?_, ?_, ?_, fun wd => hgen tier2 ana wd⟩
  · rw [hres]
    exact hgen tier2 ana _
  · rw [hres, hres]
    exact (hgen tier2 ana _).trans (hgen tier2b anab _).symm
  · rw [hres]
    exact fetchWikipediaTimeline_requests_pos net

/-- The structured override used in the counterexample and witness. -/
def olympusOverride : List App.RawTimelineEvent :=
  [⟨"Volcanic Construction", 3500000000, "Shield building by repeated basaltic flows",
      "Mars chronology"⟩,
   ⟨"Current State", 0, "Dormant shield volcano", "Mars chronology"⟩]

/-- Olympus Mons, the feature carrying the structured override. -/
def olympusFeature : Kmz.KMZFeature :=
  ⟨"Olympus Mons", "Mons", some (.fin 601), none, none, none, .famous,
    .fin (-133), .fin 18⟩

/-- A one-entry `TIMELINE_DATA` table with an override for
`(MARS, Olympus Mons)`. -/
def demoTimelineData : List ((String × String) × List App.RawTimelineEvent) :=
  [(("MARS", "Olympus Mons"), olympusOverride)]

/-- Claim C1 counterexample: with a structured override present for
`(MARS, Olympus Mons)` and an empty cache, the resolution still issues one
knowledge-base request (the search), contradicting "no knowledge-base
request is ever issued for that resolution". -/
theorem claim_C1_counterexample :
    App.tdLookup demoTimelineData (some "MARS") "Olympus Mons" = some olympusOverride ∧
    (App.resolveTimeline demoTimelineData (fun _ => []) true [] (some "MARS")
        olympusFeature .searchNoResult).requests = 1 :=
  ⟨rfl, rfl⟩

/-- Witness for the amended claim C1 at the Olympus Mons override, an empty
cache, and two different knowledge-base outcomes and extraction
behaviours. -/
theorem claim_C1_structured_override_witness :
    (App.resolveTimeline demoTimelineData (fun _ => []) true [] (some "MARS")
        olympusFeature .searchNoResult).timeline =
      olympusOverride.map App.convertStructuredEvent ∧
    (App.resolveTimeline demoTimelineData (fun _ => []) true [] (some "MARS")
        olympusFeature .searchNoResult).timeline =
      (App.resolveTimeline demoTimelineData
        (fun _ => [⟨"Spurious", "never", "never", "never", none, none⟩]) false []
        (some "MARS") olympusFeature
        (.success ⟨"Olympus Mons", "intro text", "full text", "wikitext",
          "https://en.wikipedia.org/wiki/Olympus_Mons"⟩)).timeline ∧
    1 ≤ (App.resolveTimeline demoTimelineData (fun _ => []) true [] (some "MARS")
        olympusFeature .searchNoResult).requests ∧
    (∀ wd, App.generateTimeline demoTimelineData (fun _ => []) true (some "MARS")
        olympusFeature wd = olympusOverride.map App.convertStructuredEvent) :=
  claim_C1_structured_override demoTimelineData (fun _ => [])
    (fun _ => [⟨"Spurious", "never", "never", "never", none, none⟩]) true false
    (some "MARS") olympusFeature .searchNoResult
    (.success ⟨"Olympus Mons", "intro text", "full text", "wikitext",
      "https://en.wikipedia.org/wiki/Olympus_Mons"⟩)
    [] olympusOverride rfl rfl

namespace App

/-- Shared state of two concurrent `showFeatureDetails` resolutions for the
same `(body, feature)` key under the cooperative scheduling model: the
timeline cache, the number of `fetchWikipediaTimeline` call sequences
started, the total HTTP requests issued, the number of `generateTimeline`
computations performed, and each task's (started, finished) flags. -/
structure ConcState where
  cache : List (String × List TimelineEvent)
  fetchCalls : ℕ
  requests : ℕ
  computations : ℕ
  taskA : Bool × Bool
  taskB : Bool × Bool

/-- One cooperative step of a task (`who = false` for A, `true` for B).  An
unstarted task runs the synchronous prefix of the resolution: it checks the
cache, finishing immediately on a hit, and otherwise starts the Wikipedia
fetch — the suspension point — marking itself in flight.  A task in flight
resumes after its fetch: it computes the timeline and writes the cache.
This mirrors `showFeatureDetails` lines 1028-1037, where the cache is
written only after the awaited fetch completes. -/
def concStep (td : List ((String × String) × List RawTimelineEvent))
    (tier2 : WikiData → List TimelineEvent) (ana : Bool) (planet : Option String)
    (f : Kmz.KMZFeature) (net : WikiNet) (st : ConcState) (who : Bool) : ConcState :=
  let t := if who then st.taskB else st.taskA
  if t.1 = false then
    match st.cache.lookup (cacheKey planet f.name) with
    | some _ =>
        if who then { st with taskB := (true, true) } else { st with taskA := (true, true) }
    | none =>
        let st2 := { st with fetchCalls := st.fetchCalls + 1,
                             requests := st.requests + (fetchWikipediaTimeline net).1 }
        if who then { st2 with taskB := (true, false) }
        else { st2 with taskA := (true, false) }
  else if t.2 = false then
    let st2 := { st with computations := st.computations + 1,
                         cache := (cacheKey planet f.name,
                           generateTimeline td tier2 ana planet f
                             (fetchWikipediaTimeline net).2) :: st.cache }
    if who then { st2 with taskB := (true, true) } else { st2 with taskA := (true, true) }
  else st

/-- Run a schedule of cooperative steps from the empty cache with both
resolutions pending. -/
def concRun (td : List ((String × String) × List RawTimelineEvent))
    (tier2 : WikiData → List TimelineEvent) (ana : Bool) (planet : Option String)
    (f : Kmz.KMZFeature) (net : WikiNet) (schedule : List Bool) : ConcState :=
  schedule.foldl (concStep td tier2 ana planet f net)
    ⟨[], 0, 0, 0, (false, false), (false, false)⟩

end App

/-- Claim C2 (amended): the timeline cache deduplicates only a resolution
that starts after another has completed — in the sequential schedule
`A-check, A-finish, B-check` the second resolution hits the cache, with one
fetch sequence and one computation in total.  Two resolutions for the same
key started before either completes (schedule `A-check, B-check, A-finish,
B-finish`) each issue their own knowledge-base request sequence and each
compute the key: there is no single-flight mechanism. -/
theorem claim_C2_cache_not_single_flight
    (td : List ((String × String) × List App.RawTimelineEvent))
    (tier2 : App.WikiData → List App.TimelineEvent) (ana : Bool)
    (planet : Option String) (f : Kmz.KMZFeature) (net : App.WikiNet) :
    ((App.concRun td tier2 ana planet f net [false, false, true]).fetchCalls = 1 ∧
     (App.concRun td tier2 ana planet f net [false, false, true]).computations = 1 ∧
     (App.concRun td tier2 ana planet f net [false, false, true]).taskB = (true, true)) ∧
    ((App.concRun td tier2 ana planet f net [false, true, false, true]).fetchCalls = 2 ∧
     (App.concRun td tier2 ana planet f net [false, true, false, true]).computations = 2 ∧
     (App.concRun td tier2 ana planet f net [false, true, false, true]).requests =
       (App.fetchWikipediaTimeline net).1 + (App.fetchWikipediaTimeline net).1) := by
  refine ⟨⟨?_, ?_, ?_⟩, ?_, ?_, ?_⟩ <;>
    simp [App.concRun, App.concStep, List.lookup]

/-- Claim C2 counterexample: from an empty cache, two resolutions for the
same key that both start before either completes issue two knowledge-base
request sequences and compute the key twice — not the claimed single
sequence and single computation. -/
theorem claim_C2_counterexample :
    (App.concRun [] (fun _ => []) false none olympusFeature .searchNoResult
        [false, true, false, true]).fetchCalls = 2 ∧
    (App.concRun [] (fun _ => []) false none olympusFeature .searchNoResult
        [false, true, false, true]).computations = 2 :=
  ⟨rfl, rfl⟩

namespace AreaSelection

/-- `THREE.MathUtils.degToRad`. -/
noncomputable def degToRad (d : ℝ) : ℝ := d * (Real.pi / 180)

/-- `THREE.MathUtils.radToDeg`. -/
noncomputable def radToDeg (r : ℝ) : ℝ := r * (180 / Real.pi)

/-- `Math.atan2` in exact arithmetic: the argument of the complex number
`x + y i`, valued in `(-π, π]`. -/
noncomputable def atan2 (y x : ℝ) : ℝ := Complex.arg ⟨x, y⟩

/-- `sphericalToCartesian` from `src/lib/area-selection.ts`, in exact real
arithmetic: polar angle from the north pole, azimuth `-lon`. -/
noncomputable def sphericalToCartesian (lat lon radius : ℝ) : ℝ × ℝ × ℝ :=
  (radius * Real.sin (degToRad (90 - lat)) * Real.cos (degToRad (-lon)),
   radius * Real.cos (degToRad (90 - lat)),
   radius * Real.sin (degToRad (90 - lat)) * Real.sin (degToRad (-lon)))

/-- `cartesianToSpherical` from `src/lib/area-selection.ts`, in exact real
arithmetic: latitude from `acos(y / length)`, longitude `-atan2(z, x)`. -/
noncomputable def cartesianToSpherical (p : ℝ × ℝ × ℝ) : ℝ × ℝ :=
  (90 - radToDeg (Real.arccos (p.2.1 / Real.sqrt (p.1 ^ 2 + p.2.1 ^ 2 + p.2.2 ^ 2))),
   -(radToDeg (atan2 p.2.2 p.1)))

end AreaSelection

/-- Degree/radian conversion cancels. -/
theorem radToDeg_degToRad (a : ℝ) : AreaSelection.radToDeg (AreaSelection.degToRad a) = a := by
  unfold AreaSelection.radToDeg AreaSelection.degToRad
  field_simp

/-- Claim C10 counterexample: at the north pole (`lat = 90`, within the
claim's stated domain) the longitude is destroyed by the round trip —
`(90, 50)` comes back as `(90, 0)`, an error of 50 degrees, far beyond the
claimed `1e-6`.  (At the pole the floating-point computation agrees exactly
with this real-arithmetic model: every intermediate is exactly
representable.) -/
theorem claim_C10_counterexample :
    AreaSelection.cartesianToSpherical (AreaSelection.sphericalToCartesian 90 50 1) =
      (90, 0) ∧
    ¬ (|(AreaSelection.cartesianToSpherical
          (AreaSelection.sphericalToCartesian 90 50 1)).2 - 50| ≤ 1 / 1000000) := by
  have hpt : AreaSelection.sphericalToCartesian 90 50 1 = (0, 1, 0) := by
    unfold AreaSelection.sphericalToCartesian AreaSelection.degToRad
    norm_num
  have hmain : AreaSelection.cartesianToSpherical (AreaSelection.sphericalToCartesian 90 50 1) =
      (90, 0) := by
    rw [hpt]
    unfold AreaSelection.cartesianToSpherical AreaSelection.atan2
    have hz : (⟨0, 0⟩ : ℂ) = 0 := by
      apply Complex.ext <;> simp
    norm_num [Real.sqrt_one, Real.arccos_one, hz, Complex.arg_zero, AreaSelection.radToDeg]
  refine ⟨hmain, ?_⟩
  rw [hmain]
  norm_num

/-- Claim C10 (amended): away from the poles and the antimeridian —
`lat ∈ (-90, 90)`, `lon ∈ (-180, 180)` — and for every `r > 0`, the
round trip `cartesianToSpherical ∘ sphericalToCartesian` reproduces
`(lat, lon)` exactly in real arithmetic (hence within any tolerance); the
two functions share the `-lon` azimuth convention.  At `lat = ±90` the
longitude collapses and at `lon = 180` the sign flips, so the claim's
closed-ended domain fails. -/
theorem claim_C10_roundtrip (lat lon r : ℝ) (h1 : -90 < lat) (h2 : lat < 90)
    (h3 : -180 < lon) (h4 : lon < 180) (hr : 0 < r) :
    AreaSelection.cartesianToSpherical (AreaSelection.sphericalToCartesian lat lon r) =
      (lat, lon) := by
  have hpi := Real.pi_pos
  unfold AreaSelection.sphericalToCartesian AreaSelection.cartesianToSpherical
  dsimp only
  set φ := AreaSelection.degToRad (90 - lat) with hphi
  set θ := AreaSelection.degToRad (-lon) with htheta
  have hφ1 : 0 < φ := by
    rw [hphi]
    unfold AreaSelection.degToRad
    have hl : (0 : ℝ) < 90 - lat := by linarith
    positivity
  have hφ2 : φ < Real.pi := by
    rw [hphi]
    unfold AreaSelection.degToRad
    have hl : (90 : ℝ) - lat < 180 := by linarith
    calc (90 - lat) * (Real.pi / 180) < 180 * (Real.pi / 180) :=
          mul_lt_mul_of_pos_right hl (by positivity)
      _ = Real.pi := by ring
  have hθ1 : -Real.pi < θ := by
    rw [htheta]
    unfold AreaSelection.degToRad
    have hl : (-180 : ℝ) < -lon := by linarith
    calc -Real.pi = -180 * (Real.pi / 180) := by ring
      _ < -lon * (Real.pi / 180) := mul_lt_mul_of_pos_right hl (by positivity)
  have hθ2 : θ < Real.pi := by
    rw [htheta]
    unfold AreaSelection.degToRad
    have hl : -lon < (180 : ℝ) := by linarith
    calc -lon * (Real.pi / 180) < 180 * (Real.pi / 180) :=
          mul_lt_mul_of_pos_right hl (by positivity)
      _ = Real.pi := by ring
  have hsin : 0 < Real.sin φ := Real.sin_pos_of_pos_of_lt_pi hφ1 hφ2
  have hlen : (r * Real.sin φ * Real.cos θ) ^ 2 + (r * Real.cos φ) ^ 2 +
      (r * Real.sin φ * Real.sin θ) ^ 2 = r ^ 2 := by
    have hθid := Real.sin_sq_add_cos_sq θ
    have hφid := Real.sin_sq_add_cos_sq φ
    calc (r * Real.sin φ * Real.cos θ) ^ 2 + (r * Real.cos φ) ^ 2 +
        (r * Real.sin φ * Real.sin θ) ^ 2
        = r ^ 2 * ((Real.sin φ) ^ 2 * (Real.sin θ ^ 2 + Real.cos θ ^ 2) +
            Real.cos φ ^ 2) := by ring
      _ = r ^ 2 := by rw [hθid, mul_one, hφid, mul_one]
  have hsqrt : Real.sqrt ((r * Real.sin φ * Real.cos θ) ^ 2 + (r * Real.cos φ) ^ 2 +
      (r * Real.sin φ * Real.sin θ) ^ 2) = r := by
    rw [hlen]
    exact Real.sqrt_sq hr.le
  have hdiv : (r * Real.cos φ) / r = Real.cos φ := by
    field_simp
  have harccos : Real.arccos ((r * Real.cos φ) / r) = φ := by
    rw [hdiv]
    exact Real.arccos_cos hφ1.le hφ2.le
  have harg : AreaSelection.atan2 (r * Real.sin φ * Real.sin θ)
      (r * Real.sin φ * Real.cos θ) = θ := by
    unfold AreaSelection.atan2
    have hmul : (⟨r * Real.sin φ * Real.cos θ, r * Real.sin φ * Real.sin θ⟩ : ℂ) =
        ((r * Real.sin φ : ℝ) : ℂ) *
          (Complex.cos (θ : ℂ) + Complex.sin (θ : ℂ) * Complex.I) := by
      rw [← Complex.ofReal_cos, ← Complex.ofReal_sin]
      apply Complex.ext <;>
        simp [Complex.sin_ofReal_re, Complex.cos_ofReal_re]
    rw [hmul, Complex.arg_real_mul _ (mul_pos hr hsin),
      Complex.arg_cos_add_sin_mul_I (Set.mem_Ioc.mpr ⟨hθ1, hθ2.le⟩)]
  rw [hsqrt, harccos, harg, hphi, htheta, radToDeg_degToRad, radToDeg_degToRad]
  simp only [Prod.mk.injEq]
  constructor <;> ring

/-- Witness for the amended claim C10 at `lat = 0`, `lon = 0`, `r = 1`. -/
theorem claim_C10_roundtrip_witness :
    AreaSelection.cartesianToSpherical (AreaSelection.sphericalToCartesian 0 0 1) = (0, 0) :=
  claim_C10_roundtrip 0 0 1 (by norm_num) (by norm_num) (by norm_num) (by norm_num)
    (by norm_num)
